import Mathlib

/-!
Verification development for the RFID musical-box controller (`src/Read.py`).

The Python source is shallowly embedded: pin levels are `Nat` samples (0/1,
as returned by `GPIO.input`), wall-clock times, playback positions and the
mixer volume are exact rationals `ℚ`, calls into the external audio backend
(`pygame.mixer.music.*`) are recorded as an emitted `Command` list, and the
RFID reader's per-poll result (`SimpleMFRC522.read_no_block`, which may also
raise) is a `ReadResult`.  Console printing, the optional startup chime and
GPIO setup are I/O with no bearing on the state machine and are not modelled.
-/

namespace Yoto

/-- A call issued to the audio backend (`pygame.mixer.music`). -/
inductive Command where
  | stop
  | load (path : String)
  | play (start : ℚ)
  | pause
  | unpause
  | setVolume (v : ℚ)
  deriving DecidableEq, Repr

/-- The spec's playback mode, derived from the two booleans of the source. -/
inductive Mode where
  | Idle
  | Playing
  | Paused
  deriving DecidableEq, Repr

/-- A presence transition observed by the RFID block of `MusicBox.run`:
`arrived` is the rising-edge branch (`self.current_uid is None` and a UID is
read), `changed` the same-poll UID-swap branch, `removed` the grace-expired
removal branch. -/
inductive PresenceEvent where
  | arrived (uid : String)
  | changed (uid : String)
  | removed
  deriving DecidableEq, Repr

/-- Outcome of one `self.reader.read_no_block()` call: `err` when the read
raises (caught at `except Exception` in `run`), `ok none` when it returns
`(None, text)` (no tag this poll), `ok (some (uid, payload))` when a tag with
stringified UID `uid` and payload `payload` is read. -/
inductive ReadResult where
  | err
  | ok (tag : Option (String × Option String))
  deriving DecidableEq, Repr

/-- Persistent state of `RotaryEncoder` (`src/Read.py`, lines 22-47):
last-seen CLK/DT levels, time of the last accepted rotation, and the
rotation counter. -/
structure EncState where
  clk_last_state : Nat
  dt_last_state : Nat
  last_rotation_time : ℚ
  rotation_counter : Nat
  deriving DecidableEq, Repr

/-- `RotaryEncoder.check_rotation` (lines 49-80): on a falling CLK edge
(current level 0, previous level different) outside the 5 ms debounce floor,
emit direction -1 when DT reads 0 and +1 otherwise, and record the event
time; in every case the last-seen levels are updated.  Returns the updated
state and the direction (0 when no rotation). -/
def check_rotation (s : EncState) (clk_state dt_state : Nat) (now : ℚ) :
    EncState × Int :=
  if clk_state ≠ s.clk_last_state ∧ clk_state = 0 then
    if now - s.last_rotation_time > 5 / 1000 then
      ({ clk_last_state := clk_state, dt_last_state := dt_state,
         last_rotation_time := now,
         rotation_counter := s.rotation_counter + 1 },
       if dt_state = 0 then -1 else 1)
    else
      ({ s with clk_last_state := clk_state, dt_last_state := dt_state }, 0)
  else
    ({ s with clk_last_state := clk_state, dt_last_state := dt_state }, 0)

/-- `RotaryEncoder.is_pressed` (line 99-100): the switch line reads low. -/
def is_pressed (sw_state : Nat) : Bool := sw_state = 0

/-- Mutable state of `MusicBox` (`src/Read.py`, lines 102-128), field names
as in the source.  `current_track_path` is `none` for Python `None`;
`pygame`-side state (mixer busy flag) is an input to each step, not stored. -/
structure BoxState where
  volume : ℚ
  is_paused : Bool
  is_playing : Bool
  current_track_path : Option String
  current_pos_sec : ℚ
  last_status_update_time : ℚ
  seek_step_sec : ℚ
  paused_uid : Option String
  current_uid : Option String
  uid_last_seen : ℚ
  remove_grace : ℚ
  current_text : String
  armed : Bool
  deriving DecidableEq, Repr

/-- The spec's `PlaybackState.mode`, read off the source's two flags:
`Idle` when not playing, otherwise `Paused`/`Playing` by `is_paused`. -/
def BoxState.mode (s : BoxState) : Mode :=
  if s.is_playing then (if s.is_paused then Mode.Paused else Mode.Playing)
  else Mode.Idle

/-- Initial `MusicBox.__init__` state (lines 103-128). -/
def initBox : BoxState :=
  { volume := 1 / 2, is_paused := false, is_playing := false,
    current_track_path := none, current_pos_sec := 0,
    last_status_update_time := 0, seek_step_sec := 10, paused_uid := none,
    current_uid := none, uid_last_seen := 0, remove_grace := 1,
    current_text := "Start", armed := true }

/-- Characters kept by `re.sub(r"[^A-Za-z0-9_-]", "", text)` (line 332). -/
def isTrackChar (c : Char) : Bool :=
  (('A' ≤ c ∧ c ≤ 'Z') ∨ ('a' ≤ c ∧ c ≤ 'z') ∨ ('0' ≤ c ∧ c ≤ '9')) ∨
    c = '_' ∨ c = '-'

/-- `re.sub(r"[^A-Za-z0-9_-]", "", t)`: drop every disallowed character. -/
def sanitize (t : String) : String := String.mk (t.data.filter isTrackChar)

/-- Python's `str.strip()`: drop leading and trailing whitespace. -/
def pyStrip (t : String) : String :=
  String.mk
    (((t.data.dropWhile Char.isWhitespace).reverse.dropWhile
        Char.isWhitespace).reverse)

/-- The local `text` variable after `if text: text = text.strip()`
(lines 330-331 and 344-345): a truthy payload is stripped, `None` and the
empty string pass through (as the empty string). -/
def strippedPayload (text : Option String) : String :=
  match text with
  | none => ""
  | some t => if t ≠ "" then pyStrip t else t

/-- `track = re.sub(r"[^A-Za-z0-9_-]", "", text or "") if text else ""`
(lines 332 and 346), applied to the already-stripped payload. -/
def deriveTrack (text : Option String) : String :=
  if strippedPayload text ≠ "" then sanitize (strippedPayload text) else ""

/-- `MusicBox.play_track`'s file resolution (lines 196-199): for each
extension `.wav` then `.mp3`, the first path that exists wins.  The
directory prefix `os.path.dirname(__file__)` is abstracted into the
existence predicate `fs`. -/
def resolveTrack (fs : String → Bool) (track : String) : Option String :=
  if fs (track ++ ".wav") then some (track ++ ".wav")
  else if fs (track ++ ".mp3") then some (track ++ ".mp3")
  else none

/-- `MusicBox.play_track` (lines 193-231): resolve the track; on success,
stop the mixer if busy, load the file, re-apply the volume and start
playback at `start_pos` (from 0 when `start_pos` is falsy or not positive),
then set the playing/paused flags, the loaded path, the position and the
status timestamp.  Returns the new state, the backend calls, and the
boolean result of the Python method.  The startup-chime fadeout (lines
206-210) is unmodelled I/O. -/
def play_track (fs : String → Bool) (busy : Bool) (track : String)
    (start_pos now : ℚ) (s : BoxState) : BoxState × List Command × Bool :=
  match resolveTrack fs track with
  | none => (s, [], false)
  | some fp =>
      ({ s with is_playing := true, is_paused := false,
                current_track_path := some fp,
                current_pos_sec := if start_pos ≠ 0 then start_pos else 0,
                last_status_update_time := now },
       (if busy then [Command.stop] else []) ++
         [Command.load fp, Command.setVolume s.volume,
          if start_pos ≠ 0 ∧ start_pos > 0 then Command.play start_pos
          else Command.play 0],
       true)

/-- `MusicBox.handle_volume_change` (lines 169-178): step the volume by
0.05 in the rotation direction, clamp to [0, 1], and call `set_volume` on
the backend only when the value actually changed. -/
def handle_volume_change (direction : Int) (s : BoxState) :
    BoxState × List Command :=
  let new_volume :=
    if direction > 0 then min 1 (s.volume + 5 / 100)
    else max 0 (s.volume - 5 / 100)
  if new_volume ≠ s.volume then
    ({ s with volume := new_volume }, [Command.setVolume new_volume])
  else (s, [])

/-- `MusicBox.handle_seek` (lines 244-278): with no loaded track, do
nothing; otherwise stop, reload the current track, re-apply the volume and
play from `max 0 (pos + step)` where `step = seek_step_sec * sign`, then
update position and status timestamp; if the box was paused, immediately
re-pause (keeping `is_paused`), else mark it playing and unpaused. -/
def handle_seek (direction : Int) (now : ℚ) (s : BoxState) :
    BoxState × List Command :=
  match s.current_track_path with
  | none => (s, [])
  | some fp =>
      let step := s.seek_step_sec * (if direction > 0 then 1 else -1)
      let new_pos := max 0 (s.current_pos_sec + step)
      let base := [Command.stop, Command.load fp,
                   Command.setVolume s.volume, Command.play new_pos]
      let s1 := { s with current_pos_sec := new_pos,
                         last_status_update_time := now }
      if s.is_paused then
        ({ s1 with is_paused := true, is_playing := true },
         base ++ [Command.pause])
      else
        ({ s1 with is_playing := true, is_paused := false }, base)

/-- `MusicBox.check_music_status` (lines 233-242): while playing, unpaused
and the mixer is busy, advance the position by the positive wall-clock
delta; always refresh the status timestamp; if playing, unpaused and the
mixer is no longer busy, the song ended: clear `is_playing`. -/
def check_music_status (busy : Bool) (now : ℚ) (s : BoxState) : BoxState :=
  let s1 :=
    if s.is_playing ∧ ¬s.is_paused ∧ busy ∧
        now - s.last_status_update_time > 0 then
      { s with current_pos_sec :=
                 s.current_pos_sec + (now - s.last_status_update_time),
               last_status_update_time := now }
    else { s with last_status_update_time := now }
  if s1.is_playing ∧ ¬s1.is_paused ∧ ¬busy then
    { s1 with is_playing := false }
  else s1

/-- The RFID block of `MusicBox.run` (lines 312-367), one debounced poll.
`err` is the caught `except Exception` path: nothing changes.  A read with
a UID either is a rising edge (`current_uid` was `None`): resume in place
when paused on the same UID with a track loaded, else derive a track from
the payload and play it from 0 (clearing `paused_uid` on success); or the
tag is still present: refresh `uid_last_seen`, and on a changed UID play
the new tag's track the same way.  An empty read removes the tag only
after the grace window: re-arm, pause if playing, remember the removed UID
in `paused_uid`, clear `current_uid`.  Returns state, backend calls and
the presence transition taken. -/
def rfid_poll (fs : String → Bool) (busy : Bool) (read : ReadResult)
    (now : ℚ) (s : BoxState) :
    BoxState × List Command × Option PresenceEvent :=
  match read with
  | ReadResult.err => (s, [], none)
  | ReadResult.ok none =>
      match s.current_uid with
      | some _ =>
          if now - s.uid_last_seen > s.remove_grace then
            if s.is_playing ∧ ¬s.is_paused then
              ({ s with armed := true, is_paused := true,
                        paused_uid := s.current_uid, current_uid := none },
               [Command.pause], some PresenceEvent.removed)
            else
              ({ s with armed := true, current_uid := none }, [],
               some PresenceEvent.removed)
          else (s, [], none)
      | none => (s, [], none)
  | ReadResult.ok (some (uid, text)) =>
      match s.current_uid with
      | none =>
          let s1 := { s with current_uid := some uid, uid_last_seen := now }
          if s.is_paused ∧ s.current_track_path.isSome ∧
              s.paused_uid = some uid then
            ({ s1 with is_paused := false, is_playing := true,
                       last_status_update_time := now, armed := false },
             [Command.unpause], some (PresenceEvent.arrived uid))
          else
            let track := deriveTrack text
            if track ≠ "" then
              match play_track fs busy track 0 now s1 with
              | (s2, cmds, true) =>
                  ({ s2 with current_text := strippedPayload text,
                             paused_uid := none, armed := false },
                   cmds, some (PresenceEvent.arrived uid))
              | (s2, cmds, false) =>
                  ({ s2 with armed := false }, cmds,
                   some (PresenceEvent.arrived uid))
            else
              ({ s1 with armed := false }, [],
               some (PresenceEvent.arrived uid))
      | some c =>
          let s1 := { s with uid_last_seen := now }
          if uid ≠ c then
            let s2 := { s1 with current_uid := some uid }
            let track := deriveTrack text
            if track ≠ "" then
              match play_track fs busy track 0 now s2 with
              | (s3, cmds, true) =>
                  ({ s3 with current_text := strippedPayload text,
                             paused_uid := none, armed := false },
                   cmds, some (PresenceEvent.changed uid))
              | (s3, cmds, false) =>
                  ({ s3 with armed := false }, cmds,
                   some (PresenceEvent.changed uid))
            else (s2, [], some (PresenceEvent.changed uid))
          else (s1, [], none)

/-- State threaded through `MusicBox.run` (lines 292-368): the box, the
encoder, and the two debounce timestamps local to `run`. -/
structure LoopState where
  box : BoxState
  enc : EncState
  rfid_check_time : ℚ
  status_check_time : ℚ
  deriving DecidableEq, Repr

/-- External inputs sampled during one iteration of the `while` loop:
the wall clock, the three pin levels, the mixer busy flag, and the RFID
read outcome (consulted only when the 0.5 s RFID debounce has elapsed). -/
structure PollInput where
  now : ℚ
  clk_state : Nat
  dt_state : Nat
  sw_state : Nat
  busy : Bool
  read : ReadResult

/-- One iteration of the `while` loop in `MusicBox.run` (lines 296-368),
translated in source order: encoder rotation (seek when the switch is held,
volume otherwise), then the 1 s-debounced `check_music_status` tick, then
the 0.5 s-debounced RFID poll (which refreshes `rfid_check_time` also on a
read error, line 367). -/
def loop_iter (fs : String → Bool) (inp : PollInput) (ls : LoopState) :
    LoopState × List Command × Option PresenceEvent :=
  let ed := check_rotation ls.enc inp.clk_state inp.dt_state inp.now
  let bc1 :=
    if ed.2 ≠ 0 then
      if is_pressed inp.sw_state then handle_seek ed.2 inp.now ls.box
      else handle_volume_change ed.2 ls.box
    else (ls.box, [])
  let bs2 :=
    if inp.now - ls.status_check_time > 1 then
      (check_music_status inp.busy inp.now bc1.1, inp.now)
    else (bc1.1, ls.status_check_time)
  let br3 :=
    if inp.now - ls.rfid_check_time > 1 / 2 then
      (rfid_poll fs inp.busy inp.read inp.now bs2.1, inp.now)
    else ((bs2.1, [], none), ls.rfid_check_time)
  ({ box := br3.1.1, enc := ed.1, rfid_check_time := br3.2,
     status_check_time := bs2.2 },
   bc1.2 ++ br3.1.2.1, br3.1.2.2)

/-- The rotation/press phase of one iteration (lines 299-304), as a
standalone step: updated box, updated encoder, emitted commands. -/
def encoderPhase (inp : PollInput) (b : BoxState) (e : EncState) :
    BoxState × EncState × List Command :=
  let ed := check_rotation e inp.clk_state inp.dt_state inp.now
  if ed.2 ≠ 0 then
    if is_pressed inp.sw_state then
      let r := handle_seek ed.2 inp.now b
      (r.1, ed.1, r.2)
    else
      let r := handle_volume_change ed.2 b
      (r.1, ed.1, r.2)
  else (b, ed.1, [])

/-- The 1 s-debounced status phase of one iteration (lines 307-309):
updated box and `status_check_time`. -/
def statusPhase (inp : PollInput) (b : BoxState) (t : ℚ) : BoxState × ℚ :=
  if inp.now - t > 1 then (check_music_status inp.busy inp.now b, inp.now)
  else (b, t)

/-- The 0.5 s-debounced RFID phase of one iteration (lines 311-367):
updated box, `rfid_check_time`, commands and presence transition. -/
def rfidPhase (fs : String → Bool) (inp : PollInput) (b : BoxState)
    (t : ℚ) : BoxState × ℚ × List Command × Option PresenceEvent :=
  if inp.now - t > 1 / 2 then
    let r := rfid_poll fs inp.busy inp.read inp.now b
    (r.1, inp.now, r.2.1, r.2.2)
  else (b, t, [], none)

/-- Modelled from the spec: the iteration ordering asserted by §5 and
claim C7 — rotation/press decoding first, THEN tag-presence transitions,
THEN the periodic status/position refresh.  Built from the same three
phases as `loop_iter`, for comparison with the source order. -/
def loop_iter_spec_order (fs : String → Bool) (inp : PollInput)
    (ls : LoopState) : LoopState × List Command × Option PresenceEvent :=
  let p1 := encoderPhase inp ls.box ls.enc
  let p2 := rfidPhase fs inp p1.1 ls.rfid_check_time
  let p3 := statusPhase inp p2.1 ls.status_check_time
  ({ box := p3.1, enc := p1.2.1, rfid_check_time := p2.2.1,
     status_check_time := p3.2 },
   p1.2.2 ++ p2.2.2.1, p2.2.2.2)

/-- The box state after a sequence of rotation events handled with the
switch released: `handle_volume_change` folded over the directions. -/
def volumeSeq (ds : List Int) (s : BoxState) : BoxState :=
  ds.foldl (fun b d => (handle_volume_change d b).1) s

/-- A filesystem with no audio files. -/
def fsEmpty : String → Bool := fun _ => false

/-- A filesystem holding exactly `Mario.mp3`. -/
def fsMario : String → Bool := fun p => p = "Mario.mp3"

/-- A box paused by removal of tag `11` with a track loaded mid-song. -/
def sPaused11 : BoxState :=
  { initBox with is_playing := true, is_paused := true,
                 current_track_path := some "Zelda.mp3",
                 current_pos_sec := 42, paused_uid := some "11" }

/-- A box playing `Mario.mp3`, three seconds in. -/
def sPlayingMario : BoxState :=
  { initBox with is_playing := true,
                 current_track_path := some "Mario.mp3",
                 current_pos_sec := 3 }

/-- A box playing with tag `7` tracked, last corroborated at time 0. -/
def sTracked7 : BoxState :=
  { initBox with is_playing := true,
                 current_track_path := some "Mario.mp3",
                 current_uid := some "7", uid_last_seen := 0 }

/-- Loop state at time 0 with tag `7` tracked and music playing. -/
def lsTracked7 : LoopState :=
  { box := sTracked7, enc := ⟨1, 1, 0, 0⟩,
    rfid_check_time := 0, status_check_time := 0 }

/-- Poll input at time 2: no pin edge, mixer busy, empty RFID read. -/
def inpMiss2 : PollInput :=
  { now := 2, clk_state := 1, dt_state := 1, sw_state := 1,
    busy := true, read := ReadResult.ok none }

end Yoto

namespace Yoto

/-- C9: on an accepted falling edge of the clock line (previous clock level
1, current 0, outside the debounce floor), the emitted direction is -1
(counter-clockwise decrement) exactly when the data line reads 0, and +1
(clockwise increment) when it reads 1. -/
theorem c9_direction_on_falling_edge (s : EncState) (now : ℚ)
    (dt_state : Nat)
    (hprev : s.clk_last_state = 1)
    (hdeb : now - s.last_rotation_time > 5 / 1000) :
    (dt_state = 0 → (check_rotation s 0 dt_state now).2 = -1) ∧
    (dt_state = 1 → (check_rotation s 0 dt_state now).2 = 1) := by
  constructor
  · intro h0
    simp [check_rotation, hprev, hdeb, h0]
  · intro h1
    simp [check_rotation, hprev, hdeb, h1]

/-- Witness for C9: a concrete accepted falling edge, evaluated both with
data line 0 and data line 1. -/
theorem c9_direction_on_falling_edge_witness :
    (check_rotation ⟨1, 1, 0, 0⟩ 0 0 1).2 = -1 ∧
    (check_rotation ⟨1, 1, 0, 0⟩ 0 1 1).2 = 1 :=
  ⟨(c9_direction_on_falling_edge ⟨1, 1, 0, 0⟩ 1 0 rfl (by norm_num)).1 rfl,
   (c9_direction_on_falling_edge ⟨1, 1, 0, 0⟩ 1 1 rfl (by norm_num)).2 rfl⟩

theorem mode_paused_iff (s : BoxState) :
    s.mode = Mode.Paused ↔ s.is_playing = true ∧ s.is_paused = true := by
  cases hp : s.is_playing <;> cases hq : s.is_paused <;>
    simp [BoxState.mode, hp, hq]

theorem mode_playing_iff (s : BoxState) :
    s.mode = Mode.Playing ↔ s.is_playing = true ∧ s.is_paused = false := by
  cases hp : s.is_playing <;> cases hq : s.is_paused <;>
    simp [BoxState.mode, hp, hq]

theorem mode_idle_iff (s : BoxState) :
    s.mode = Mode.Idle ↔ s.is_playing = false := by
  cases hp : s.is_playing <;> cases hq : s.is_paused <;>
    simp [BoxState.mode, hp, hq]

/-- C1: from a Paused state with `pausedByUid = A`, a track loaded and no
tag currently tracked, a rising-edge read of the same UID `A` resumes in
place — exactly one `unpause` call, mode Playing, every other field
(position included) unchanged apart from the presence bookkeeping; a
rising-edge read of a different UID `B` whose payload derives a track that
resolves to an existing file loads and plays it from position 0 and clears
`pausedByUid`. -/
theorem c1_reinsertion_law (fs : String → Bool) (busy : Bool) (s : BoxState)
    (a b : String) (ta tb : Option String) (now : ℚ) (fp : String)
    (hmode : s.mode = Mode.Paused)
    (hload : s.current_track_path.isSome = true)
    (hpuid : s.paused_uid = some a)
    (hedge : s.current_uid = none)
    (hne : b ≠ a)
    (htr : deriveTrack tb ≠ "")
    (hres : resolveTrack fs (deriveTrack tb) = some fp) :
    (rfid_poll fs busy (ReadResult.ok (some (a, ta))) now s =
      ({ s with current_uid := some a, uid_last_seen := now,
                is_paused := false, is_playing := true,
                last_status_update_time := now, armed := false },
       [Command.unpause], some (PresenceEvent.arrived a))) ∧
    ((rfid_poll fs busy (ReadResult.ok (some (b, tb))) now s).2.1 =
      (if busy then [Command.stop] else []) ++
        [Command.load fp, Command.setVolume s.volume, Command.play 0]) ∧
    ((rfid_poll fs busy (ReadResult.ok (some (b, tb))) now s).1.current_pos_sec
        = 0) ∧
    ((rfid_poll fs busy (ReadResult.ok (some (b, tb))) now s).1.paused_uid
        = none) ∧
    ((rfid_poll fs busy (ReadResult.ok (some (b, tb))) now s).1.mode
        = Mode.Playing) ∧
    ((rfid_poll fs busy (ReadResult.ok (some (b, tb))) now s).2.2
        = some (PresenceEvent.arrived b)) := by
  obtain ⟨hpl, hps⟩ := (mode_paused_iff s).1 hmode
  have hne' : a ≠ b := fun h => hne h.symm
  refine ⟨?_, ?_⟩
  · simp [rfid_poll, hedge, hps, hload, hpuid]
  · simp [rfid_poll, play_track, hedge, hps, hload, hpuid, hne', htr, hres,
          BoxState.mode]

/-- Witness for C1: reinserting the pausing tag `11` into the concrete
paused box resumes in place with a single `unpause` call. -/
theorem c1_reinsertion_law_witness :
    rfid_poll fsMario false (ReadResult.ok (some ("11", none))) 9 sPaused11 =
      ({ sPaused11 with current_uid := some "11", uid_last_seen := 9,
                        is_paused := false, is_playing := true,
                        last_status_update_time := 9, armed := false },
       [Command.unpause], some (PresenceEvent.arrived "11")) :=
  (c1_reinsertion_law fsMario false sPaused11 "11" "22" none (some "Mario")
      9 "Mario.mp3" (by decide) (by decide) rfl rfl (by decide) (by decide)
      (by decide)).1

/-- C2 fails as stated: on a status tick with mode Playing and the backend
no longer busy, `check_music_status` clears only `is_playing`; the loaded
track path is kept (the source relies on it to restart after finish, line
276), so afterwards mode = Idle yet trackId ≠ none. -/
theorem c2_end_of_track_counterexample :
    sPlayingMario.mode = Mode.Playing ∧
    (check_music_status false 5 sPlayingMario).mode = Mode.Idle ∧
    (check_music_status false 5 sPlayingMario).current_track_path =
      some "Mario.mp3" := by
  decide

/-- C2 amended: on a status tick with mode Playing and the backend
reporting playback no longer active, the controller transitions to mode
Idle, leaving the track path and position unchanged — the invariant
mode = Idle ⇒ trackId = none therefore does not hold after a natural
end-of-track. -/
theorem c2_end_of_track_amended (s : BoxState) (now : ℚ)
    (hmode : s.mode = Mode.Playing) :
    (check_music_status false now s).mode = Mode.Idle ∧
    (check_music_status false now s).current_track_path =
      s.current_track_path ∧
    (check_music_status false now s).current_pos_sec = s.current_pos_sec := by
  obtain ⟨hpl, hps⟩ := (mode_playing_iff s).1 hmode
  simp [check_music_status, hpl, hps, BoxState.mode]

/-- Witness for C2 (amended): the concrete playing box ends its song. -/
theorem c2_end_of_track_amended_witness :
    (check_music_status false 5 sPlayingMario).mode = Mode.Idle ∧
    (check_music_status false 5 sPlayingMario).current_track_path =
      sPlayingMario.current_track_path ∧
    (check_music_status false 5 sPlayingMario).current_pos_sec =
      sPlayingMario.current_pos_sec :=
  c2_end_of_track_amended sPlayingMario 5 (by decide)

/-- C3: with tag `A` tracked and the grace interval elapsed since the last
corroborating read, an empty poll removes the tag: when Playing, exactly
one `pause` call is issued, mode becomes Paused and `pausedByUid = A`;
when already Paused or Idle, no backend call is made; in either case the
tag is untracked, and any further empty poll from an untracked state is a
strict no-op, so exactly one removal is emitted. -/
theorem c3_grace_removal (fs : String → Bool) (busy : Bool) (s : BoxState)
    (a : String) (now : ℚ)
    (huid : s.current_uid = some a)
    (hgrace : now - s.uid_last_seen > s.remove_grace) :
    (s.mode = Mode.Playing →
      rfid_poll fs busy (ReadResult.ok none) now s =
        ({ s with armed := true, is_paused := true, paused_uid := some a,
                  current_uid := none },
         [Command.pause], some PresenceEvent.removed) ∧
      (rfid_poll fs busy (ReadResult.ok none) now s).1.mode = Mode.Paused) ∧
    ((s.mode = Mode.Paused ∨ s.mode = Mode.Idle) →
      rfid_poll fs busy (ReadResult.ok none) now s =
        ({ s with armed := true, current_uid := none }, [],
         some PresenceEvent.removed)) ∧
    ((rfid_poll fs busy (ReadResult.ok none) now s).1.current_uid = none) ∧
    (∀ (fs2 : String → Bool) (busy2 : Bool) (now2 : ℚ) (s2 : BoxState),
      s2.current_uid = none →
      rfid_poll fs2 busy2 (ReadResult.ok none) now2 s2 = (s2, [], none)) := by
  refine ⟨?_, ?_, ?_, ?_⟩
  · intro hm
    obtain ⟨hpl, hps⟩ := (mode_playing_iff s).1 hm
    constructor
    · simp [rfid_poll, huid, hgrace, hpl, hps]
    · simp [rfid_poll, huid, hgrace, hpl, hps, BoxState.mode]
  · intro hm
    rcases hm with hm | hm
    · obtain ⟨hpl, hps⟩ := (mode_paused_iff s).1 hm
      simp [rfid_poll, huid, hgrace, hps]
    · have hi := (mode_idle_iff s).1 hm
      simp [rfid_poll, huid, hgrace, hi]
  · simp only [rfid_poll, huid]
    rw [if_pos hgrace]
    split <;> rfl
  · intro fs2 busy2 now2 s2 h2
    simp [rfid_poll, h2]

/-- Witness for C3: the concrete playing box with tag `7` last seen at 0,
polled empty at time 2, pauses with `pausedByUid = 7`. -/
theorem c3_grace_removal_witness :
    rfid_poll fsEmpty true (ReadResult.ok none) 2 sTracked7 =
      ({ sTracked7 with armed := true, is_paused := true,
                        paused_uid := some "7", current_uid := none },
       [Command.pause], some PresenceEvent.removed) :=
  ((c3_grace_removal fsEmpty true sTracked7 "7" 2 rfl
      (by norm_num [sTracked7, initBox])).1 (by decide)).1

/-- C4: for the poll sequence present(A), miss, miss, present(A) entirely
inside the removal grace window, every poll emits no presence transition
at all and no backend call, and the tag stays tracked: a single missed
poll never produces Absent. -/
theorem c4_flaky_reads (fs : String → Bool) (busy : Bool) (s : BoxState)
    (a : String) (ta tb : Option String) (t0 t1 t2 t3 : ℚ)
    (huid : s.current_uid = some a)
    (h1 : ¬(t1 - t0 > s.remove_grace))
    (h2 : ¬(t2 - t0 > s.remove_grace)) :
    rfid_poll fs busy (ReadResult.ok (some (a, ta))) t0 s =
      ({ s with uid_last_seen := t0 }, [], none) ∧
    rfid_poll fs busy (ReadResult.ok none) t1
        { s with uid_last_seen := t0 } =
      ({ s with uid_last_seen := t0 }, [], none) ∧
    rfid_poll fs busy (ReadResult.ok none) t2
        { s with uid_last_seen := t0 } =
      ({ s with uid_last_seen := t0 }, [], none) ∧
    rfid_poll fs busy (ReadResult.ok (some (a, tb))) t3
        { s with uid_last_seen := t0 } =
      ({ s with uid_last_seen := t3 }, [], none) := by
  refine ⟨?_, ?_, ?_, ?_⟩
  · simp [rfid_poll, huid]
  · simp [rfid_poll, huid, h1]
  · simp [rfid_poll, huid, h2]
  · simp [rfid_poll, huid]

/-- Witness for C4: a concrete miss half a second after a corroborated
read is a strict no-op. -/
theorem c4_flaky_reads_witness :
    rfid_poll fsEmpty true (ReadResult.ok none) (5 / 2)
        { sTracked7 with uid_last_seen := 2 } =
      ({ sTracked7 with uid_last_seen := 2 }, [], none) :=
  (c4_flaky_reads fsEmpty true sTracked7 "7" none none 2 (5 / 2) 3 (16 / 5)
      rfl (by norm_num [sTracked7, initBox])
      (by norm_num [sTracked7, initBox])).2.1

/-- C5: a rotation with the switch held and a track loaded seeks to
`max 0 (pos + seekStep * sign direction)` (seekStep 10 s): the position is
updated to exactly that value, the backend receives stop, load of the
current track, the volume and a play from the new position — followed by a
re-applied `pause` exactly when the box was paused — and the mode (Paused
or Playing) is preserved. -/
theorem c5_seek (s : BoxState) (d : Int) (now : ℚ) (fp : String)
    (hfp : s.current_track_path = some fp)
    (hd : d ≠ 0)
    (hstep : s.seek_step_sec = 10) :
    ((handle_seek d now s).1.current_pos_sec =
        max 0 (s.current_pos_sec + 10 * (d.sign : ℚ))) ∧
    ((handle_seek d now s).2 =
        [Command.stop, Command.load fp, Command.setVolume s.volume,
         Command.play (max 0 (s.current_pos_sec + 10 * (d.sign : ℚ)))] ++
          (if s.is_paused = true then [Command.pause] else [])) ∧
    (s.mode = Mode.Paused → (handle_seek d now s).1.mode = Mode.Paused) ∧
    (s.mode = Mode.Playing → (handle_seek d now s).1.mode = Mode.Playing)
    := by
  have hsign : (if d > 0 then (1 : ℚ) else -1) = (d.sign : ℚ) := by
    rcases lt_trichotomy d 0 with h | h | h
    · rw [if_neg (by omega), Int.sign_eq_neg_one_iff_neg.2 h]
      norm_num
    · exact absurd h hd
    · rw [if_pos h, Int.sign_eq_one_iff_pos.2 h]
      norm_num
  refine ⟨?_, ?_, ?_, ?_⟩
  · cases hps : s.is_paused <;>
      simp [handle_seek, hfp, hstep, hsign, hps]
  · cases hps : s.is_paused <;>
      simp [handle_seek, hfp, hstep, hsign, hps]
  · intro hm
    obtain ⟨hpl, hps⟩ := (mode_paused_iff s).1 hm
    simp [handle_seek, hfp, hps, BoxState.mode]
  · intro hm
    obtain ⟨hpl, hps⟩ := (mode_playing_iff s).1 hm
    simp [handle_seek, hfp, hps, BoxState.mode]

/-- Witness for C5: a counter-clockwise detent while playing 3 s into the
track clamps the new position at 0. -/
theorem c5_seek_witness :
    (handle_seek (-1) 4 sPlayingMario).1.current_pos_sec =
      max 0 (sPlayingMario.current_pos_sec + 10 * ((-1 : Int).sign : ℚ)) :=
  (c5_seek sPlayingMario (-1) 4 "Mario.mp3" rfl (by decide) rfl).1

theorem volume_step_bounds (d : Int) (s : BoxState)
    (h0 : 0 ≤ s.volume) (h1 : s.volume ≤ 1) :
    0 ≤ (handle_volume_change d s).1.volume ∧
      (handle_volume_change d s).1.volume ≤ 1 := by
  by_cases hd : d > 0
  · simp only [handle_volume_change, if_pos hd]
    split
    · exact ⟨le_min (by norm_num) (by linarith), min_le_left _ _⟩
    · exact ⟨h0, h1⟩
  · simp only [handle_volume_change, if_neg hd]
    split
    · exact ⟨le_max_left _ _, max_le (by norm_num) (by linarith)⟩
    · exact ⟨h0, h1⟩

theorem volumeSeq_bounds (ds : List Int) (s : BoxState)
    (h0 : 0 ≤ s.volume) (h1 : s.volume ≤ 1) :
    0 ≤ (volumeSeq ds s).volume ∧ (volumeSeq ds s).volume ≤ 1 := by
  induction ds generalizing s with
  | nil => exact ⟨h0, h1⟩
  | cons d ds ih =>
      have h := volume_step_bounds d s h0 h1
      simpa [volumeSeq, List.foldl_cons] using
        ih (handle_volume_change d s).1 h.1 h.2

/-- C6: each released-switch rotation steps the volume by 0.05 with
clamping to [0, 1]; starting inside [0, 1] the volume stays inside after
one event and after any event sequence; `setVolume` is sent exactly when
the value changed, so a detent at a clamp boundary makes no backend
call. -/
theorem c6_volume_invariant (s : BoxState) (d : Int) (ds : List Int)
    (h0 : 0 ≤ s.volume) (h1 : s.volume ≤ 1) :
    ((handle_volume_change d s).1.volume =
      if d > 0 then min 1 (s.volume + 5 / 100)
      else max 0 (s.volume - 5 / 100)) ∧
    (0 ≤ (handle_volume_change d s).1.volume ∧
      (handle_volume_change d s).1.volume ≤ 1) ∧
    ((handle_volume_change d s).2 =
      if (handle_volume_change d s).1.volume ≠ s.volume then
        [Command.setVolume (handle_volume_change d s).1.volume] else []) ∧
    (s.volume = 1 → d > 0 → handle_volume_change d s = (s, [])) ∧
    (s.volume = 0 → ¬d > 0 → handle_volume_change d s = (s, [])) ∧
    (0 ≤ (volumeSeq ds s).volume ∧ (volumeSeq ds s).volume ≤ 1) := by
  refine ⟨?_, volume_step_bounds d s h0 h1, ?_, ?_, ?_,
    volumeSeq_bounds ds s h0 h1⟩
  · by_cases hd : d > 0
    · simp only [handle_volume_change, if_pos hd]
      split
      · rfl
      · next h => exact (not_ne_iff.mp h).symm
    · simp only [handle_volume_change, if_neg hd]
      split
      · rfl
      · next h => exact (not_ne_iff.mp h).symm
  · by_cases hd : d > 0
    · simp only [handle_volume_change, if_pos hd]
      split
      · next h => simp [h]
      · next h => simp [not_ne_iff.mp h]
    · simp only [handle_volume_change, if_neg hd]
      split
      · next h => simp [h]
      · next h => simp [not_ne_iff.mp h]
  · intro hv hd
    simp only [handle_volume_change, if_pos hd, hv]
    rw [if_neg (not_ne_iff.mpr (by norm_num))]
  · intro hv hd
    simp only [handle_volume_change, if_neg hd, hv]
    rw [if_neg (not_ne_iff.mpr (by norm_num))]

/-- Witness for C6: one clockwise detent from the initial 50% volume lands
inside [0, 1]. -/
theorem c6_volume_invariant_witness :
    0 ≤ (handle_volume_change 1 initBox).1.volume ∧
      (handle_volume_change 1 initBox).1.volume ≤ 1 :=
  (c6_volume_invariant initBox 1 [1, 1, -1] (by norm_num [initBox])
      (by norm_num [initBox])).2.1

/-- C7 fails as stated: the loop body evaluates the periodic status tick
(lines 307-309) BEFORE the tag-presence block (lines 311-367), not after.
At a concrete iteration in which a tag removal and a status tick are both
due, the source order advances the position to 2 before pausing, while the
spec's claimed order pauses first and leaves the position at 0. -/
theorem c7_order_counterexample :
    loop_iter fsEmpty inpMiss2 lsTracked7 ≠
      loop_iter_spec_order fsEmpty inpMiss2 lsTracked7 := by
  have h1 : (loop_iter fsEmpty inpMiss2 lsTracked7).1.box.current_pos_sec
      = 2 := by
    norm_num [loop_iter, lsTracked7, inpMiss2, sTracked7, initBox,
      check_rotation, is_pressed, check_music_status, rfid_poll]
  have h2 : (loop_iter_spec_order fsEmpty inpMiss2
        lsTracked7).1.box.current_pos_sec = 0 := by
    norm_num [loop_iter_spec_order, encoderPhase, statusPhase, rfidPhase,
      lsTracked7, inpMiss2, sTracked7, initBox, check_rotation, is_pressed,
      check_music_status, rfid_poll]
  intro h
  rw [h, h2] at h1
  exact absurd h1 (by norm_num)

/-- C7 amended: within every poll-loop iteration the fixed evaluation
order is rotation/press decoding first, then the periodic (≥1 Hz)
status/position refresh, then the tag-presence transitions: `loop_iter`
factors as the composition of its three phases in exactly that order. -/
theorem c7_phase_order_amended (fs : String → Bool) (inp : PollInput)
    (ls : LoopState) :
    loop_iter fs inp ls =
      (let p1 := encoderPhase inp ls.box ls.enc
       let p2 := statusPhase inp p1.1 ls.status_check_time
       let p3 := rfidPhase fs inp p2.1 ls.rfid_check_time
       ({ box := p3.1, enc := p1.2.1, rfid_check_time := p3.2.1,
          status_check_time := p2.2 },
        p1.2.2 ++ p3.2.2.1, p3.2.2.2)) := by
  by_cases h1 : (check_rotation ls.enc inp.clk_state inp.dt_state inp.now).2
      ≠ 0 <;>
    by_cases h2 : is_pressed inp.sw_state = true <;>
      by_cases h3 : (1 : ℚ) < inp.now - ls.status_check_time <;>
        by_cases h4 : (2 : ℚ)⁻¹ < inp.now - ls.rfid_check_time <;>
          simp [loop_iter, encoderPhase, statusPhase, rfidPhase,
            h1, h2, h3, h4]

/-- C8 fails in part: a raised tag read is a strict no-op (state unchanged,
no backend call, no transition), which is NOT the same handling as an
errorless empty read — with the grace window already elapsed, the empty
read removes the tag and pauses, the failed read does nothing. -/
theorem c8_error_read_counterexample :
    rfid_poll fsEmpty true ReadResult.err 2 sTracked7 =
      (sTracked7, [], none) ∧
    (rfid_poll fsEmpty true (ReadResult.ok none) 2 sTracked7).2.1 =
      [Command.pause] ∧
    rfid_poll fsEmpty true (ReadResult.ok none) 2 sTracked7 ≠
      rfid_poll fsEmpty true ReadResult.err 2 sTracked7 := by
  have hok : (rfid_poll fsEmpty true (ReadResult.ok none) 2
      sTracked7).2.1 = [Command.pause] := by
    norm_num [rfid_poll, sTracked7, initBox]
  refine ⟨rfl, hok, ?_⟩
  intro h
  rw [h] at hok
  simp [rfid_poll] at hok

/-- C8 amended: a transient error raised by the tag read makes that poll a
no-op for the whole state — presence and playback state unchanged, no
backend call, no presence transition — and so, unlike an errorless empty
read, a failed read can never trigger the grace-window removal. -/
theorem c8_error_read_amended (fs : String → Bool) (busy : Bool) (now : ℚ)
    (s : BoxState) :
    rfid_poll fs busy ReadResult.err now s = (s, [], none) := rfl

/-- C10: a seek rotation with no track loaded is a complete no-op: the
returned state is the input state (mode, position, volume, track and all
tag-tracker fields unchanged) and no backend command is issued. -/
theorem c10_seek_no_track_noop (s : BoxState) (d : Int) (now : ℚ)
    (h : s.current_track_path = none) :
    handle_seek d now s = (s, []) := by
  simp [handle_seek, h]

/-- Witness for C10: a seek on the freshly started box does nothing. -/
theorem c10_seek_no_track_noop_witness :
    handle_seek 1 3 initBox = (initBox, []) :=
  c10_seek_no_track_noop initBox 1 3 rfl

end Yoto
